import Mathlib

/-!
Verification development for the story-generation pipeline of the
`ai-story-telling` repository.

The embedding below transcribes, from the TypeScript source, the
refresh-enabled variant of the narrative pipeline
(`cleanGeneratedText`, `parseChoicesFromText`, `generateSummary`,
`refreshStoryPrompt`, `generateInitialStory`, `generateNextStorySegment`),
together with the small pieces of the second pipeline variant that the
specification also refers to (its summary concatenation update and its
consequence-join step), and the session-state actions from
`storyState.ts` (`incrementSegmentCount`, `resetSegmentCount`,
`updateStorySummary`).

JavaScript strings are modelled as Lean `String` / `List Char`; the fixed
regular expressions used by the source are transcribed as explicit
scanners with the exact matching semantics of those patterns (greedy and
lazy quantifier behaviour included, worked out per pattern).  The model
backend (`generator(prompt, params)`) is a parameter: a function from a
call index and a prompt to `Except Unit String`, so that every possible
backend behaviour - including one that always throws - can be quantified
over.  `Math.random()` is modelled as an ambient stream `ℕ → ℚ`.
Thrown-and-caught JavaScript exceptions are modelled with `Except` /
`Option`; the public functions are total, mirroring their outermost
`try`/`catch` blocks.
-/

namespace StoryGen

/-! ## JavaScript character and string helpers -/

/-- The double-quote character (written via its code point to keep the
scanning code readable). -/
def dq : Char := Char.ofNat 34

/-- The single-quote character. -/
def sq : Char := Char.ofNat 39

/-- JavaScript `\s` whitespace class, restricted to the ASCII characters
that actually occur in the data handled by the pipeline. -/
def jsWs (c : Char) : Bool :=
  c = ' ' || c = '\t' || c = '\n' || c = '\r' || c = Char.ofNat 11 || c = Char.ofNat 12

/-- Terminal punctuation `[.!?]` as used throughout the source. -/
def isPunct (c : Char) : Bool :=
  c = '.' || c = '!' || c = '?'

/-- JavaScript `\w` word-character class `[A-Za-z0-9_]`. -/
def isWordChar (c : Char) : Bool :=
  (('a' ≤ c && c ≤ 'z') || ('A' ≤ c && c ≤ 'Z') || ('0' ≤ c && c ≤ '9') || c = '_')

/-- ASCII decimal digit test. -/
def isDigitChar (c : Char) : Bool :=
  '0' ≤ c && c ≤ '9'

/-- `String.prototype.trim` on a character list. -/
def jsTrim (l : List Char) : List Char :=
  ((l.dropWhile jsWs).reverse.dropWhile jsWs).reverse

/-- `String.prototype.trim`. -/
def jsTrimStr (s : String) : String :=
  String.mk (jsTrim s.toList)

/-- ASCII lower-casing, as used for the case-insensitive `/i` regexes and
`toLowerCase()` calls (all the fixed patterns involved are ASCII). -/
def lowerList (l : List Char) : List Char :=
  l.map Char.toLower

/-- First index at which `pat` occurs as a contiguous sublist of `l`
(JavaScript `indexOf`), or `none`. -/
def indexOfSub (pat : List Char) : List Char → Option ℕ
  | [] => if pat = [] then some 0 else none
  | c :: rest =>
    if pat.isPrefixOf (c :: rest) then some 0
    else (indexOfSub pat rest).map (· + 1)

/-- JavaScript `includes` (substring containment). -/
def containsSub (l pat : List Char) : Bool :=
  (indexOfSub pat l).isSome

/-- Greatest index of a `[.!?]` character in `l` (the
`Math.max(lastIndexOf '.', lastIndexOf '!', lastIndexOf '?')` computation),
or `none` when there is none. -/
def lastPunctIdx (l : List Char) : Option ℕ :=
  (List.range l.length).foldl
    (fun acc i => if isPunct (l.getD i ' ') then some i else acc) none

/-- One non-global case-insensitive replace of `/LIT.*/i` with the empty
string: the leftmost case-insensitive occurrence of the literal `lit` is
removed together with the rest of its line (`.` does not cross `\n`). -/
def removeFirstPatternCI (lit : List Char) : List Char → List Char
  | [] => []
  | c :: rest =>
    if (lowerList lit).isPrefixOf (lowerList (c :: rest)) then
      (c :: rest).dropWhile (fun d => d ≠ '\n')
    else c :: removeFirstPatternCI lit rest

/-- All matches of `/[^.!?]+[.!?]+/g`: maximal blocks of non-punctuation
characters followed by a maximal run of terminal punctuation, in order.
Implemented with fuel (always called with fuel `≥ length + 1`). -/
def sentencesOfAux : ℕ → List Char → List (List Char)
  | 0, _ => []
  | fuel + 1, l =>
    let l1 := l.dropWhile isPunct
    if l1 = [] then []
    else
      let a := l1.takeWhile (fun c => !isPunct c)
      let rest := l1.drop a.length
      if rest = [] then []
      else
        let b := rest.takeWhile isPunct
        (a ++ b) :: sentencesOfAux fuel (rest.drop b.length)

/-- `cleanedText.match(/[^.!?]+[.!?]+/g) || []`. -/
def sentencesOf (l : List Char) : List (List Char) :=
  sentencesOfAux (l.length + 1) l

/-- Order-preserving removal of exact duplicates
(`[...new Set(sentences)]`). -/
def dedupFirstAux [DecidableEq α] (seen : List α) : List α → List α
  | [] => []
  | x :: xs =>
    if x ∈ seen then dedupFirstAux seen xs
    else x :: dedupFirstAux (x :: seen) xs

/-- `[...new Set(l)]`: duplicates removed, first occurrences kept. -/
def dedupFirst [DecidableEq α] (l : List α) : List α :=
  dedupFirstAux [] l

/-- Global replace of a run `X+` of characters satisfying `p` by the single
character `r` (used for `/\s+/g → ' '`, `/\n+/g → ' '`, `/\.+/g → '.'`). -/
def collapseRuns (p : Char → Bool) (r : Char) : ℕ → List Char → List Char
  | 0, l => l
  | _ + 1, [] => []
  | fuel + 1, c :: rest =>
    if p c then r :: collapseRuns p r fuel (rest.dropWhile p)
    else c :: collapseRuns p r fuel rest

/-- Global replace of `/([.!?])\s*([.!?])+/g` by `$1`: a punctuation
character followed by optional whitespace and at least one further
punctuation character keeps only the first character; scanning resumes
after the match, exactly as the regex engine does. -/
def punctSquash : ℕ → List Char → List Char
  | 0, l => l
  | _ + 1, [] => []
  | fuel + 1, c :: rest =>
    if isPunct c then
      let ws := rest.takeWhile jsWs
      let tl := rest.drop ws.length
      let ps := tl.takeWhile isPunct
      if ps = [] then c :: punctSquash fuel rest
      else c :: punctSquash fuel (tl.drop ps.length)
    else c :: punctSquash fuel rest

/-- The nine `irrelevantPatterns` literals of `cleanGeneratedText` (each
used in a non-global `/LIT.*/i` replace, in this order). -/
def irrelevantPatterns : List (List Char) :=
  [ "The protagonist just chose to:".toList
  , "This leads to:".toList
  , "Setting:".toList
  , "Describe only what happens".toList
  , "Continue the story".toList
  , "Be vivid but concise".toList
  , "Write a brief continuation".toList
  , "The story was first published".toList
  , "The book was first published".toList ]

/-- The fixed fallback sentence of `cleanGeneratedText`. -/
def fallbackSentence : List Char :=
  "The adventure continues...".toList

/-- `cleanedText || 'The adventure continues...'`. -/
def orFallback (l : List Char) : List Char :=
  if l = [] then fallbackSentence else l

/-- Core of `cleanGeneratedText(generatedText, prompt)`, step for step:
trim and strip an echoed prompt prefix; cut everything from a `[{`
fragment; remove the first occurrence of each instructional pattern;
deduplicate sentences when there are at least two; truncate to the last
sentence boundary within 300 characters when one exists at a positive
index; normalise whitespace and repeated punctuation; fall back to the
fixed sentence when empty. -/
def cleanSteps (generatedText prompt : List Char) : List Char :=
  let c0 := jsTrim generatedText
  let c1 := if prompt.isPrefixOf c0 then jsTrim (c0.drop prompt.length) else c0
  let c2 :=
    match indexOfSub ['[', '\x7b'] c1 with
    | some i => jsTrim (c1.take i)
    | none => c1
  let c3 := irrelevantPatterns.foldl (fun acc pat => removeFirstPatternCI pat acc) c2
  let sents := sentencesOf c3
  let c4 := if 1 < sents.length then List.intercalate [' '] (dedupFirst sents) else c3
  let c5 :=
    if 300 < c4.length then
      match lastPunctIdx (c4.take 300) with
      | some i => if 0 < i then c4.take (i + 1) else c4
      | none => c4
    else c4
  punctSquash (c5.length + 1)
    (collapseRuns (fun c => c = '.') '.' (c5.length + 1)
      (collapseRuns (fun c => c = '\n') ' ' (c5.length + 1)
        (collapseRuns jsWs ' ' (c5.length + 1) (jsTrim c5))))

/-- `cleanGeneratedText` steps 1-6 followed by the empty-result fallback
(step 7). -/
def cleanCore (generatedText prompt : List Char) : List Char :=
  orFallback (cleanSteps generatedText prompt)

/-- `cleanGeneratedText` from the refresh-enabled pipeline variant. -/
def cleanGeneratedText (generatedText prompt : String) : String :=
  String.mk (cleanCore generatedText.toList prompt.toList)

/-! ## Data model (`types/Story.ts`, `types/Environment.ts`) -/

/-- `LightingConfig`. -/
structure LightingConfig where
  intensity : ℚ
  color : String
  ambient : ℚ
  shadows : Bool
deriving DecidableEq

/-- `Partial<LightingConfig>` (the `lightingChange` payload). -/
structure LightingChange where
  intensity : Option ℚ := none
  color : Option String := none
  ambient : Option ℚ := none
  shadows : Option Bool := none
deriving DecidableEq

/-- `AtmosphereConfig` (its `fogDensity`/`fogColor` fields are optional in
the source as well; the unused `particles` field is omitted everywhere in
the pipeline and is not modelled). -/
structure AtmosphereConfig where
  fog : Bool
  fogDensity : Option ℚ := none
  fogColor : Option String := none
deriving DecidableEq

/-- `Partial<AtmosphereConfig>` (the `atmosphereChange` payload). -/
structure AtmosphereChange where
  fog : Option Bool := none
  fogDensity : Option ℚ := none
  fogColor : Option String := none
deriving DecidableEq

/-- Transition kinds of `AnimationEffect.transitionType`. -/
inductive TransitionType where
  | fade
  | slide
  | zoom
deriving DecidableEq

/-- `AnimationEffect`. -/
structure AnimationEffect where
  transitionType : Option TransitionType := none
  intensity : Option ℚ := none
  duration : Option ℚ := none
deriving DecidableEq

/-- `EnvironmentModification` (`addProps`/`removeProps` are never used by
the pipeline and are not modelled). -/
structure EnvironmentModification where
  lightingChange : LightingChange := {}
  atmosphereChange : AtmosphereChange := {}
  animationEffect : Option AnimationEffect := none
deriving DecidableEq

/-- `Prop` items of `EnvironmentDescription.props` (carried through the
pipeline untouched). -/
structure PropItem where
  type : String
  position : ℚ × ℚ × ℚ
  rotation : Option (ℚ × ℚ × ℚ) := none
  scale : Option (ℚ × ℚ × ℚ) := none
deriving DecidableEq

/-- `EnvironmentDescription`. -/
structure EnvironmentDescription where
  baseEnvironment : String
  lighting : LightingConfig
  atmosphere : AtmosphereConfig
  props : List PropItem
deriving DecidableEq

/-- `StoryMetadata`. -/
structure StoryMetadata where
  mood : String
  location : String
  timeOfDay : String
  weatherConditions : String
deriving DecidableEq

/-- `Choice`. -/
structure Choice where
  text : String
  consequence : String
  environmentImpact : EnvironmentModification
deriving DecidableEq

/-- `StorySegment`. -/
structure StorySegment where
  text : String
  environment : EnvironmentDescription
  choices : List Choice
  metadata : StoryMetadata
deriving DecidableEq

/-- Object spread `{ ...lighting, ...change }` for lighting payloads. -/
def mergeLighting (a : LightingConfig) (b : LightingChange) : LightingConfig where
  intensity := b.intensity.getD a.intensity
  color := b.color.getD a.color
  ambient := b.ambient.getD a.ambient
  shadows := b.shadows.getD a.shadows

/-- Object spread `{ ...atmosphere, ...change }` for atmosphere payloads. -/
def mergeAtmosphere (a : AtmosphereConfig) (b : AtmosphereChange) : AtmosphereConfig where
  fog := b.fog.getD a.fog
  fogDensity := if b.fogDensity.isSome then b.fogDensity else a.fogDensity
  fogColor := if b.fogColor.isSome then b.fogColor else a.fogColor

/-! ## JSON values and `JSON.parse` -/

/-- JSON values, as produced by `JSON.parse`. -/
inductive JVal where
  | jnull
  | jbool (b : Bool)
  | jnum (q : ℚ)
  | jstr (s : List Char)
  | jarr (elems : List JVal)
  | jobj (fields : List (List Char × JVal))

/-- JSON whitespace (the class accepted by `JSON.parse`). -/
def jsonWs (c : Char) : Bool :=
  c = ' ' || c = '\t' || c = '\n' || c = '\r'

/-- Hex digit value. -/
def hexVal (c : Char) : Option ℕ :=
  let n := c.toNat
  if 48 ≤ n && n ≤ 57 then some (n - 48)
  else if 97 ≤ n && n ≤ 102 then some (n - 87)
  else if 65 ≤ n && n ≤ 70 then some (n - 55)
  else none

/-- Parse the body of a JSON string (after the opening quote), returning
the decoded characters and the remainder after the closing quote.  Raw
control characters are rejected, escapes follow the JSON grammar. -/
def parseJsonString : ℕ → List Char → Option (List Char × List Char)
  | 0, _ => none
  | _ + 1, [] => none
  | fuel + 1, c :: rest =>
    if c = dq then some ([], rest)
    else if c = '\\' then
      match rest with
      | [] => none
      | e :: rest2 =>
        let decoded : Option (Char × List Char) :=
          if e = dq then some (dq, rest2)
          else if e = '\\' then some ('\\', rest2)
          else if e = '/' then some ('/', rest2)
          else if e = 'b' then some (Char.ofNat 8, rest2)
          else if e = 'f' then some (Char.ofNat 12, rest2)
          else if e = 'n' then some ('\n', rest2)
          else if e = 'r' then some ('\r', rest2)
          else if e = 't' then some ('\t', rest2)
          else if e = 'u' then
            match rest2 with
            | h1 :: h2 :: h3 :: h4 :: rest3 =>
              match hexVal h1, hexVal h2, hexVal h3, hexVal h4 with
              | some a, some b, some c3, some d =>
                some (Char.ofNat (((a * 16 + b) * 16 + c3) * 16 + d), rest3)
              | _, _, _, _ => none
            | _ => none
          else none
        match decoded with
        | some (ch, rest3) =>
          match parseJsonString fuel rest3 with
          | some (s, rem) => some (ch :: s, rem)
          | none => none
        | none => none
    else if c.toNat < 32 then none
    else
      match parseJsonString fuel rest with
      | some (s, rem) => some (c :: s, rem)
      | none => none

/-- Digits-to-number accumulation. -/
def digitsToNat (ds : List Char) : ℕ :=
  ds.foldl (fun acc c => acc * 10 + (c.toNat - '0'.toNat)) 0

/-- Parse a JSON number starting at the given characters; follows the JSON
grammar (no leading zeros, optional fraction and exponent). -/
def parseJsonNumber (l : List Char) : Option (ℚ × List Char) :=
  let (neg, l1) := match l with
    | '-' :: t => (true, t)
    | _ => (false, l)
  let intDigits := l1.takeWhile isDigitChar
  if intDigits = [] then none
  else if 1 < intDigits.length && intDigits.headD '0' = '0' then none
  else
    let l2 := l1.drop intDigits.length
    let (fracDigits, l3) := match l2 with
      | '.' :: t =>
        let fd := t.takeWhile isDigitChar
        (fd, t.drop fd.length)
      | _ => ([], l2)
    if l2 ≠ l3 && fracDigits = [] then none
    else
      let (expOk, expNeg, expDigits, l4) := match l3 with
        | 'e' :: t | 'E' :: t =>
          let (en, t2) := match t with
            | '-' :: u => (true, u)
            | '+' :: u => (false, u)
            | _ => (false, t)
          let ed := t2.takeWhile isDigitChar
          (!ed.isEmpty, en, ed, t2.drop ed.length)
        | _ => (true, false, ([] : List Char), l3)
      if !expOk then none
      else
        let mantissa : ℚ :=
          (digitsToNat intDigits : ℚ) +
            (digitsToNat fracDigits : ℚ) / ((10 : ℚ) ^ fracDigits.length)
        let scaled : ℚ :=
          if expNeg then mantissa / ((10 : ℚ) ^ digitsToNat expDigits)
          else mantissa * ((10 : ℚ) ^ digitsToNat expDigits)
        some ((if neg then -scaled else scaled), l4)

mutual

/-- Parse a single JSON value (leading whitespace already skipped). -/
def parseJsonVal : ℕ → List Char → Option (JVal × List Char)
  | 0, _ => none
  | fuel + 1, l =>
    match l with
    | [] => none
    | c :: rest =>
      if c = dq then
        match parseJsonString (rest.length + 1) rest with
        | some (s, rem) => some (JVal.jstr s, rem)
        | none => none
      else if c = '[' then
        let rest2 := rest.dropWhile jsonWs
        match rest2 with
        | ']' :: rem => some (JVal.jarr [], rem)
        | _ =>
          match parseJsonVal fuel rest2 with
          | some (v, rem) =>
            match parseJsonArrTail fuel rem with
            | some (vs, rem2) => some (JVal.jarr (v :: vs), rem2)
            | none => none
          | none => none
      else if c = '\x7b' then
        let rest2 := rest.dropWhile jsonWs
        match rest2 with
        | '\x7d' :: rem => some (JVal.jobj [], rem)
        | _ =>
          match parseJsonMember fuel rest2 with
          | some (kv, rem) =>
            match parseJsonObjTail fuel rem with
            | some (kvs, rem2) => some (JVal.jobj (kv :: kvs), rem2)
            | none => none
          | none => none
      else if ("true".toList).isPrefixOf l then some (JVal.jbool true, l.drop 4)
      else if ("false".toList).isPrefixOf l then some (JVal.jbool false, l.drop 5)
      else if ("null".toList).isPrefixOf l then some (JVal.jnull, l.drop 4)
      else
        match parseJsonNumber l with
        | some (q, rem) => some (JVal.jnum q, rem)
        | none => none

/-- Parse `(ws ',' ws value)* ws ']'` after an array element. -/
def parseJsonArrTail : ℕ → List Char → Option (List JVal × List Char)
  | 0, _ => none
  | fuel + 1, l =>
    match l.dropWhile jsonWs with
    | ']' :: rem => some ([], rem)
    | ',' :: rest =>
      match parseJsonVal fuel (rest.dropWhile jsonWs) with
      | some (v, rem) =>
        match parseJsonArrTail fuel rem with
        | some (vs, rem2) => some (v :: vs, rem2)
        | none => none
      | none => none
    | _ => none

/-- Parse one `"key" ws ':' ws value` member (at the key's quote). -/
def parseJsonMember : ℕ → List Char → Option ((List Char × JVal) × List Char)
  | 0, _ => none
  | fuel + 1, l =>
    match l with
    | c :: rest =>
      if c = dq then
        match parseJsonString (rest.length + 1) rest with
        | some (k, rem) =>
          match rem.dropWhile jsonWs with
          | ':' :: rest2 =>
            match parseJsonVal fuel (rest2.dropWhile jsonWs) with
            | some (v, rem2) => some ((k, v), rem2)
            | none => none
          | _ => none
        | none => none
      else none
    | [] => none

/-- Parse `(ws ',' ws member)* ws '}'` after an object member. -/
def parseJsonObjTail : ℕ → List Char → Option (List (List Char × JVal) × List Char)
  | 0, _ => none
  | fuel + 1, l =>
    match l.dropWhile jsonWs with
    | '\x7d' :: rem => some ([], rem)
    | ',' :: rest =>
      match parseJsonMember fuel (rest.dropWhile jsonWs) with
      | some (kv, rem) =>
        match parseJsonObjTail fuel rem with
        | some (kvs, rem2) => some (kv :: kvs, rem2)
        | none => none
      | none => none
    | _ => none

end

/-- `JSON.parse`: parse one value surrounded by optional whitespace;
anything else throws (modelled as `none`). -/
def jsonParse (l : List Char) : Option JVal :=
  match parseJsonVal (l.length + 1) (l.dropWhile jsonWs) with
  | some (v, rem) => if rem.dropWhile jsonWs = [] then some v else none
  | none => none

/-! ## `parseChoicesFromText` -/

/-- Lazy search for the `\}\s*\]` closer of `/\[\s*\{.*?\}\s*\]/s`:
returns the middle matched by `.*?` and the closing characters, taking the
first `}` that is followed by whitespace and `]`. -/
def lazyCloseSplit : ℕ → List Char → Option (List Char × List Char)
  | 0, _ => none
  | _ + 1, [] => none
  | fuel + 1, c :: rest =>
    if c = '\x7d' then
      let w := rest.takeWhile jsWs
      match rest.drop w.length with
      | ']' :: _ => some ([], '\x7d' :: (w ++ [']']))
      | _ =>
        match lazyCloseSplit fuel rest with
        | some (mid, close) => some (c :: mid, close)
        | none => none
    else
      match lazyCloseSplit fuel rest with
      | some (mid, close) => some (c :: mid, close)
      | none => none

/-- Attempt a match of `/\[\s*\{.*?\}\s*\]/s` starting at the head of `l`
(which must be `[`); returns the full matched text. -/
def tryArrayAt (l : List Char) : Option (List Char) :=
  match l with
  | '[' :: r =>
    let w := r.takeWhile jsWs
    match r.drop w.length with
    | '\x7b' :: r2 =>
      match lazyCloseSplit (r2.length + 1) r2 with
      | some (mid, close) => some ('[' :: (w ++ '\x7b' :: (mid ++ close)))
      | none => none
    | _ => none
  | _ => none

/-- `jsonArrayRegex.exec(jsonString)`: the leftmost match of
`/\[\s*\{.*?\}\s*\]/gs`, or `none`. -/
def jsonArrayExtract : ℕ → List Char → Option (List Char)
  | 0, _ => none
  | _ + 1, [] => none
  | fuel + 1, c :: rest =>
    if c = '[' then
      match tryArrayAt ('[' :: rest) with
      | some m => some m
      | none => jsonArrayExtract fuel rest
    else jsonArrayExtract fuel rest

/-- Global replace of `/(\w+)\s*:/g` by `"$1":` (quote unquoted keys): a
maximal word run followed by whitespace and a colon becomes the quoted
word followed directly by the colon. -/
def quoteKeys : ℕ → List Char → List Char
  | 0, l => l
  | _ + 1, [] => []
  | fuel + 1, c :: rest =>
    if isWordChar c then
      let run := (c :: rest).takeWhile isWordChar
      let after := (c :: rest).drop run.length
      let w := after.takeWhile jsWs
      match after.drop w.length with
      | ':' :: rest2 => (dq :: run) ++ (dq :: ':' :: quoteKeys fuel rest2)
      | _ => (run ++ w) ++ quoteKeys fuel (after.drop w.length)
    else c :: quoteKeys fuel rest

/-- Characters allowed inside the value group `[^",\}\]]+` of the third
repair regex. -/
def isValueChar (c : Char) : Bool :=
  !(c = dq || c = ',' || c = '\x7d' || c = ']')

/-- Delimiters `[,\}\]]` closing the value group. -/
def isValueDelim (c : Char) : Bool :=
  c = ',' || c = '\x7d' || c = ']'

/-- Attempt a match of `\s*"?([^",\}\]]+)"?([,\}\]])` directly after a
colon; returns the captured value, the delimiter, and the remainder.  The
quantifier backtracking collapses to: maximal whitespace, optional quote,
the maximal run of value characters (which must be non-empty), an optional
quote, then a mandatory delimiter. -/
def tryValueAt (cs : List Char) : Option (List Char × Char × List Char) :=
  let w := cs.takeWhile jsWs
  let p := cs.drop w.length
  let p1 := match p with
    | c :: t => if c = dq then t else p
    | [] => p
  let run := p1.takeWhile isValueChar
  if run = [] then none
  else
    match p1.drop run.length with
    | c :: d :: rest =>
      if c = dq then (if isValueDelim d then some (run, d, rest) else none)
      else if isValueDelim c then some (run, c, d :: rest)
      else none
    | [c] => if c ≠ dq && isValueDelim c then some (run, c, []) else none
    | [] => none

/-- Global replace of `/:\s*"?([^",\}\]]+)"?([,\}\]])/g` by `:"$1"$2`
(quote unquoted values). -/
def quoteValues : ℕ → List Char → List Char
  | 0, l => l
  | _ + 1, [] => []
  | fuel + 1, c :: rest =>
    if c = ':' then
      match tryValueAt rest with
      | some (v, d, rest2) => (':' :: dq :: v) ++ (dq :: d :: quoteValues fuel rest2)
      | none => ':' :: quoteValues fuel rest
    else c :: quoteValues fuel rest

/-- The `cleanedJson` repair chain of strategy A: single quotes to double
quotes, then key quoting, then value quoting. -/
def repairJson (l : List Char) : List Char :=
  let l1 := l.map (fun c => if c = sq then dq else c)
  let l2 := quoteKeys (l1.length + 1) l1
  quoteValues (l2.length + 1) l2

/-- JavaScript truthiness of a JSON value. -/
def jvalTruthy : JVal → Bool
  | JVal.jnull => false
  | JVal.jbool b => b
  | JVal.jnum q => decide (q ≠ 0)
  | JVal.jstr s => !s.isEmpty
  | JVal.jarr _ => true
  | JVal.jobj _ => true

/-- Rendering of a truthy JSON value into the `string`-typed field of a
`Choice`.  After the quoting repairs the pipeline only ever reaches this
with string values; non-string truthy values (which untyped JavaScript
would pass through unchanged) are rendered opaquely. -/
def jvalDisplay : JVal → String
  | JVal.jstr s => String.mk s
  | JVal.jbool true => "true"
  | JVal.jbool false => "false"
  | _ => "value"

/-- Last-occurrence field lookup on a parsed object (duplicate JSON keys
keep the last value, as `JSON.parse` does); non-objects have no fields. -/
def jvalField (v : JVal) (key : List Char) : Option JVal :=
  match v with
  | JVal.jobj fields =>
    fields.foldl (fun acc kv => if kv.1 = key then some kv.2 else acc) none
  | _ => none

/-- `c.text || dflt` / `c.consequence || dflt`: the field when truthy,
otherwise the default. -/
def fieldOrDefault (v : JVal) (key : List Char) (dflt : String) : String :=
  match jvalField v key with
  | some fv => if jvalTruthy fv then jvalDisplay fv else dflt
  | none => dflt

/-- The `animationTypes` array of strategy A. -/
def animationTypes : List TransitionType :=
  [TransitionType.fade, TransitionType.slide, TransitionType.zoom]

/-- `animationTypes[Math.floor(r * animationTypes.length)]`: out-of-range
indices (impossible for a genuine `Math.random()` draw) give `undefined`,
i.e. `none`. -/
def pickTransition (r : ℚ) : Option TransitionType :=
  if (0 : ℤ) ≤ ⌊r * 3⌋ then animationTypes.get? (⌊r * 3⌋).toNat
  else none

/-- One choice built by strategy A from array element `i` (the
environment impact is synthesized: dimmer lighting for the first choice,
brighter for the rest, with randomized fog and animation data). -/
def mkChoiceA (rand : ℕ → ℚ) (i : ℕ) (v : JVal) : Choice where
  text := fieldOrDefault v "text".toList "Continue"
  consequence := fieldOrDefault v "consequence".toList "You continue your journey"
  environmentImpact :=
    { lightingChange := { intensity := some (if i = 0 then (0.8 : ℚ) else (1.2 : ℚ)) }
      atmosphereChange := { fogDensity := some (rand (4 * i) * (0.1 : ℚ)) }
      animationEffect := some
        { transitionType := pickTransition (rand (4 * i + 1))
          intensity := some (1 + rand (4 * i + 2) * (0.5 : ℚ))
          duration := some (2 + rand (4 * i + 3)) } }

/-- Index-passing map used for `parsed.map((c, index) => ...)`. -/
def mapWithIdxAux (f : ℕ → α → β) : ℕ → List α → List β
  | _, [] => []
  | i, x :: xs => f i x :: mapWithIdxAux f (i + 1) xs

/-- `parsed.map((c, index) => ...)`. -/
def mapWithIdx (f : ℕ → α → β) (l : List α) : List β :=
  mapWithIdxAux f 0 l

/-- `Array.isArray(parsed) && parsed.length >= 2`: the acceptance test of
strategy A applied to a `JSON.parse` result. -/
def asArrayAtLeastTwo : Option JVal → Option (List JVal)
  | some (JVal.jarr xs) => if 2 ≤ xs.length then some xs else none
  | _ => none

/-- Strategy A (structured extraction): locate a bracketed
array-of-objects fragment, repair it, `JSON.parse` it, and accept when the
result is an array of length at least 2 - in which case a choice is built
from every element. -/
def strategyA (rand : ℕ → ℚ) (jsonString : List Char) : Option (List Choice) :=
  match jsonArrayExtract (jsonString.length + 1) jsonString with
  | none => none
  | some m =>
    match asArrayAtLeastTwo (jsonParse (repairJson m)) with
    | some xs => some (mapWithIdx (mkChoiceA rand) xs)
    | none => none

/-- Scanner for all matches of `/"?KEY"?\s*:\s*"([^"]+)"/gi`, returning
the captured (untrimmed) values in order. -/
def scanKeyValues (key : List Char) : ℕ → List Char → List (List Char)
  | 0, _ => []
  | _ + 1, [] => []
  | fuel + 1, c :: rest =>
    let attempt : Option (List Char × List Char) :=
      let l1 := if c = dq then rest else c :: rest
      if (lowerList key).isPrefixOf (lowerList l1) then
        let l2 := l1.drop key.length
        let l3 := match l2 with
          | d :: t => if d = dq then t else l2
          | [] => l2
        let l4 := l3.dropWhile jsWs
        match l4 with
        | ':' :: l5 =>
          let l6 := l5.dropWhile jsWs
          match l6 with
          | q :: l7 =>
            if q = dq then
              let captured := l7.takeWhile (fun d => d ≠ dq)
              match l7.drop captured.length with
              | _ :: l8 => if captured = [] then none else some (captured, l8)
              | [] => none
            else none
          | [] => none
        | _ => none
      else none
    match attempt with
    | some (captured, rem) => captured :: scanKeyValues key fuel rem
    | none => scanKeyValues key fuel rest

/-- The fixed environment impact given to the first extracted choice of
strategies B and C. -/
def impactFirstBC : EnvironmentModification where
  lightingChange := { intensity := some (0.8 : ℚ) }
  atmosphereChange := { fogDensity := some (0.1 : ℚ) }
  animationEffect := some
    { transitionType := some TransitionType.fade
      intensity := some (1.2 : ℚ)
      duration := some (2 : ℚ) }

/-- The fixed environment impact given to the second extracted choice of
strategies B and C. -/
def impactSecondBC : EnvironmentModification where
  lightingChange := { intensity := some (1.2 : ℚ) }
  atmosphereChange := { fogDensity := some (0.01 : ℚ) }
  animationEffect := some
    { transitionType := some TransitionType.zoom
      intensity := some (1.3 : ℚ)
      duration := some (2.5 : ℚ) }

/-- Strategy B (key/value scraping): collect all `text: "..."` and
`consequence: "..."` captures; with at least two of each, pair the first
two by position. -/
def strategyB (jsonString : List Char) : Option (List Choice) :=
  match (scanKeyValues "text".toList (jsonString.length + 1) jsonString).map
      (fun v => String.mk (jsTrim v)),
    (scanKeyValues "consequence".toList (jsonString.length + 1) jsonString).map
      (fun v => String.mk (jsTrim v)) with
  | t0 :: t1 :: _, c0 :: c1 :: _ =>
    some
      [ { text := t0, consequence := c0, environmentImpact := impactFirstBC }
      , { text := t1, consequence := c1, environmentImpact := impactSecondBC } ]
  | _, _ => none

/-- Attempt the `\s*([^\n\.]+)` tail of the list-item regexes after a
matched marker: greedy whitespace with backtracking over a group that may
itself consume whitespace (but never a newline or a period).  Returns the
full consumed text and the remainder. -/
def listItemTail (cs : List Char) : Option (List Char × List Char) :=
  let w := cs.takeWhile jsWs
  let insideK : Option ℕ :=
    (List.range w.length).foldl
      (fun acc k => if w.getD k '\n' ≠ '\n' then some k else acc) none
  let kOpt : Option ℕ :=
    match cs.drop w.length with
    | d :: _ => if d ≠ '.' then some w.length else insideK
    | [] => insideK
  match kOpt with
  | some k =>
    let grp := (cs.drop k).takeWhile (fun e => e ≠ '\n' && e ≠ '.')
    some (cs.take (k + grp.length), cs.drop (k + grp.length))
  | none => none

/-- Scanner for all matches of `/\d+\.\s*([^\n\.]+)/g` (numbered list
items), returning the full match texts. -/
def scanNumberedItems : ℕ → List Char → List (List Char)
  | 0, _ => []
  | _ + 1, [] => []
  | fuel + 1, c :: rest =>
    if isDigitChar c then
      let ds := (c :: rest).takeWhile isDigitChar
      match (c :: rest).drop ds.length with
      | '.' :: afterDot =>
        match listItemTail afterDot with
        | some (consumed, rem) => (ds ++ '.' :: consumed) :: scanNumberedItems fuel rem
        | none => scanNumberedItems fuel rest
      | _ => scanNumberedItems fuel rest
    else scanNumberedItems fuel rest

/-- Bullet markers `[\*\-•]`. -/
def isBulletChar (c : Char) : Bool :=
  c = '*' || c = '-' || c = Char.ofNat 8226

/-- Scanner for all matches of `/[\*\-•]\s*([^\n\.]+)/g` (bulleted list
items), returning the full match texts. -/
def scanBulletItems : ℕ → List Char → List (List Char)
  | 0, _ => []
  | _ + 1, [] => []
  | fuel + 1, c :: rest =>
    if isBulletChar c then
      match listItemTail rest with
      | some (consumed, rem) => (c :: consumed) :: scanBulletItems fuel rem
      | none => scanBulletItems fuel rest
    else scanBulletItems fuel rest

/-- `item.replace(/^\d+\.\s*/, '').trim()`. -/
def stripNumberedMarker (m : List Char) : String :=
  let ds := m.takeWhile isDigitChar
  let rest := m.drop ds.length
  match rest with
  | '.' :: t => String.mk (jsTrim (t.dropWhile jsWs))
  | _ => String.mk (jsTrim m)

/-- `item.replace(/^[\*\-•]\s*/, '').trim()`. -/
def stripBulletMarker (m : List Char) : String :=
  match m with
  | c :: t => if isBulletChar c then String.mk (jsTrim (t.dropWhile jsWs)) else String.mk (jsTrim m)
  | [] => ""

/-- Strategy C, numbered-list step. -/
def strategyCNumbered (jsonString : List Char) : Option (List Choice) :=
  match scanNumberedItems (jsonString.length + 1) jsonString with
  | m0 :: m1 :: _ =>
    some
      [ { text := stripNumberedMarker m0
          consequence := "You choose the first option."
          environmentImpact := impactFirstBC }
      , { text := stripNumberedMarker m1
          consequence := "You choose the second option."
          environmentImpact := impactSecondBC } ]
  | _ => none

/-- Strategy C, bullet-list step. -/
def strategyCBullets (jsonString : List Char) : Option (List Choice) :=
  match scanBulletItems (jsonString.length + 1) jsonString with
  | m0 :: m1 :: _ =>
    some
      [ { text := stripBulletMarker m0
          consequence := "You choose this path."
          environmentImpact := impactFirstBC }
      , { text := stripBulletMarker m1
          consequence := "You choose this direction."
          environmentImpact := impactSecondBC } ]
  | _ => none

/-- Strategy D: the guaranteed default pair returned by the outermost
`catch`. -/
def defaultChoices : List Choice :=
  [ { text := "Explore further"
      consequence := "You decide to venture deeper into the unknown."
      environmentImpact :=
        { lightingChange := { intensity := some (0.8 : ℚ) }
          atmosphereChange := { fogDensity := some (0.1 : ℚ) }
          animationEffect := some
            { transitionType := some TransitionType.slide
              intensity := some (1.2 : ℚ)
              duration := some (2.5 : ℚ) } } }
  , { text := "Stay cautious"
      consequence := "You decide to carefully observe your surroundings before proceeding."
      environmentImpact :=
        { lightingChange := { intensity := some (1.2 : ℚ) }
          atmosphereChange := { fogDensity := some (0.01 : ℚ) }
          animationEffect := some
            { transitionType := some TransitionType.fade
              intensity := some (1.1 : ℚ)
              duration := some (2 : ℚ) } } } ]

/-- `parseChoicesFromText`: the input is trimmed, then the strategies are
tried in order - structured extraction, key/value scraping, numbered
items, bullet items - with the default pair as the final fallback.  Every
thrown-and-caught failure of an individual strategy falls through to the
next one. -/
def parseChoicesCore (rand : ℕ → ℚ) (jsonString : List Char) : List Choice :=
  match strategyA rand jsonString with
  | some cs => cs
  | none =>
  match strategyB jsonString with
  | some cs => cs
  | none =>
  match strategyCNumbered jsonString with
  | some cs => cs
  | none =>
  match strategyCBullets jsonString with
  | some cs => cs
  | none => defaultChoices

/-- `parseChoicesFromText` trims its input (`choicesText.trim()`) and runs
the strategy chain. -/
def parseChoicesFromText (rand : ℕ → ℚ) (choicesText : String) : List Choice :=
  parseChoicesCore rand (jsTrim choicesText.toList)

/-! ## Environment presets (`baseEnvironments`) -/

/-- One entry of the `baseEnvironments` table. -/
structure BaseEnvironment where
  defaultDescription : String
  lighting : LightingConfig
  atmosphere : AtmosphereConfig
  metadata : StoryMetadata
deriving DecidableEq

/-- `baseEnvironments.forest`. -/
def baseEnvironmentForest : BaseEnvironment where
  defaultDescription := "You find yourself in a mysterious forest clearing. The air is thick with anticipation, and strange sounds echo in the distance."
  lighting := { intensity := (1.2 : ℚ), color := "#fdf4c4", ambient := (0.6 : ℚ), shadows := true }
  atmosphere := { fog := true, fogDensity := some (0.02 : ℚ), fogColor := some "#d8e8f0" }
  metadata := { mood := "mysterious", location := "forest", timeOfDay := "day", weatherConditions := "clear" }

/-- `baseEnvironments.ruins`. -/
def baseEnvironmentRuins : BaseEnvironment where
  defaultDescription := "Ancient stone structures rise before you, covered in vines and moss. The remnants of a forgotten civilization."
  lighting := { intensity := (1.1 : ℚ), color := "#e8d8c0", ambient := (0.5 : ℚ), shadows := true }
  atmosphere := { fog := true, fogDensity := some (0.03 : ℚ), fogColor := some "#e0e0d8" }
  metadata := { mood := "ancient", location := "ruins", timeOfDay := "day", weatherConditions := "clear" }

/-- `baseEnvironments.cave`. -/
def baseEnvironmentCave : BaseEnvironment where
  defaultDescription := "The dark cave opens before you, stalactites hanging from the ceiling. Water drips somewhere in the distance."
  lighting := { intensity := (0.4 : ℚ), color := "#a0c0e0", ambient := (0.2 : ℚ), shadows := true }
  atmosphere := { fog := true, fogDensity := some (0.08 : ℚ), fogColor := some "#202030" }
  metadata := { mood := "mysterious", location := "cave", timeOfDay := "night", weatherConditions := "enclosed" }

/-- `baseEnvironments[key] || baseEnvironments.forest`. -/
def baseEnvironmentsGet (key : String) : BaseEnvironment :=
  if key = "forest" then baseEnvironmentForest
  else if key = "ruins" then baseEnvironmentRuins
  else if key = "cave" then baseEnvironmentCave
  else baseEnvironmentForest

/-! ## Session state (`storyState.ts`) and the model backend -/

/-- The narrative session state owned by the store, restricted to the
fields the generation pipeline reads and writes (`storySummary`,
`segmentsSincePromptRefresh`), plus a call counter indexing successive
backend invocations. -/
structure GenState where
  storySummary : String
  segmentsSincePromptRefresh : ℕ
  genCalls : ℕ
deriving DecidableEq

/-- `incrementSegmentCount` from `storyState.ts`. -/
def incrementSegmentCount (st : GenState) : GenState :=
  { st with segmentsSincePromptRefresh := st.segmentsSincePromptRefresh + 1 }

/-- `resetSegmentCount` from `storyState.ts`. -/
def resetSegmentCount (st : GenState) : GenState :=
  { st with segmentsSincePromptRefresh := 0 }

/-- `updateStorySummary` from `storyState.ts`. -/
def updateStorySummary (st : GenState) (newSummary : String) : GenState :=
  { st with storySummary := newSummary }

/-- The ambient effects of the pipeline: the model backend (indexed by
successive call number; an `error` models a thrown generation or
initialization failure) and the `Math.random()` stream. -/
structure Env where
  gen : ℕ → String → Except Unit String
  rand : ℕ → ℚ

/-- `generateText(prompt)`: one backend completion; its raw output is
passed through `cleanGeneratedText` with the prompt; a backend failure is
rethrown (`error`). -/
def generateText (env : Env) (st : GenState) (prompt : String) : Except Unit String × GenState :=
  let st2 : GenState := { st with genCalls := st.genCalls + 1 }
  match env.gen st.genCalls prompt with
  | Except.error e => (Except.error e, st2)
  | Except.ok raw => (Except.ok (cleanGeneratedText raw prompt), st2)

/-! ## Prompts -/

/-- The template of `generateSummary`. -/
def summaryPrompt (previousSummary text : String) : String :=
  "\nSummarize this story in a single concise paragraph (max 3 sentences):\n\nPrevious summary: "
    ++ previousSummary ++ "\n\nNew content: " ++ text
    ++ "\n\nKeep only the most important plot points and character information.\n"

/-- The dedicated fresh-summary template of `refreshStoryPrompt`. -/
def freshSummaryPrompt (storySummary : String) : String :=
  "\nCreate a fresh, concise summary (3 sentences max) of this fantasy story:\n\n"
    ++ storySummary
    ++ "\n\nFocus only on the most important plot points and character development.\nCapture the essence of the story without using repetitive language.\n"

/-- `buildPrompt(summary, lastParagraph, setting)`. -/
def buildPrompt (summary lastParagraph setting : String) : String :=
  "\nGenre: Fantasy\nSetting: " ++ setting ++ "\nStory summary: " ++ summary
    ++ "\n\nLast scene:\n" ++ lastParagraph
    ++ "\n\nWrite a brief continuation of this fantasy story in 2-3 sentences. Be vivid but concise.\n"

/-- `buildFreshPrompt(summary, lastParagraph, setting, metadata)`. -/
def buildFreshPrompt (summary lastParagraph setting : String) (metadata : StoryMetadata) : String :=
  "\nRESET CONTEXT\nGenre: Fantasy Adventure\nSetting: A " ++ metadata.mood ++ " " ++ setting
    ++ " during " ++ metadata.timeOfDay ++ ", " ++ metadata.weatherConditions ++ " conditions"
    ++ "\n\nComplete Story Summary: " ++ summary
    ++ "\n\nMost Recent Scene:\n" ++ lastParagraph
    ++ "\n\nWrite a fresh, focused continuation of this fantasy story in 2-3 sentences.\nBe vivid but concise. Match the established mood and setting.\nAvoid repeating phrases from the summary.\n"

/-- The opening prompt of `generateInitialStory`. -/
def initialStoryPrompt : String :=
  "Write a brief, one-line introduction to a fantasy adventure"

/-- The strict-JSON choices prompt of `generateInitialStory`. -/
def initialChoicesPrompt : String :=
  "Answer with ONLY a JSON array and nothing else. Create two choices for a  adventure.\n\nRESPOND WITH ONLY THIS JSON FORMAT:\n[\x7b\"text\":\"First choice text\",\"consequence\":\"First choice result\"\x7d,\x7b\"text\":\"Second choice text\",\"consequence\":\"Second choice result\"\x7d]\n\nKeep each text and consequence under 10 words."

/-- The strict-JSON choices prompt of `generateNextStorySegment`. -/
def nextChoicesPrompt (generatedText : String) : String :=
  "Answer with ONLY a JSON array and nothing else. Create two choices based on this situation: \""
    ++ generatedText
    ++ "\"\n\nRESPOND WITH ONLY THIS JSON FORMAT:\n[\x7b\"text\":\"First choice text\",\"consequence\":\"First choice result\"\x7d,\x7b\"text\":\"Second choice text\",\"consequence\":\"Second choice result\"\x7d]\n\nKeep each text and consequence under 10 words."

/-! ## Summaries and the prompt refresh -/

/-- `text.split('.')[0]`. -/
def firstDotSegment (text : String) : String :=
  String.mk ((text.toList.splitOn '.').headD [])

/-- `s.substring(0, n)`. -/
def strTake (n : ℕ) (s : String) : String :=
  String.mk (s.toList.take n)

/-- `generateSummary(text, previousSummary)`: a summarization completion,
trimmed on success; on failure the caught error path concatenates the
previous summary with the first sentence of the new text and caps the
result at 200 characters. -/
def generateSummary (env : Env) (st : GenState) (text previousSummary : String) :
    String × GenState :=
  match generateText env st (summaryPrompt previousSummary text) with
  | (Except.ok summary, st2) => (jsTrimStr summary, st2)
  | (Except.error _, st2) =>
    let simpleSummary :=
      if previousSummary ≠ "" then
        previousSummary ++ " Then, " ++ firstDotSegment text ++ "."
      else firstDotSegment text ++ "."
    (strTake 200 simpleSummary, st2)

/-- `refreshStoryPrompt(storySummary, lastSegment)`: generate a fresh
summary from the dedicated prompt; on success store it and reset the
segment counter; on failure return the original summary unchanged (the
counter is then not reset).  The `lastSegment` parameter is unused in the
source as well. -/
def refreshStoryPrompt (env : Env) (st : GenState) (storySummary : String)
    (_lastSegment : StorySegment) : String × GenState :=
  match generateText env st (freshSummaryPrompt storySummary) with
  | (Except.ok refreshedSummary, st2) =>
    (refreshedSummary, resetSegmentCount (updateStorySummary st2 refreshedSummary))
  | (Except.error _, st2) => (storySummary, st2)

/-- `REFRESH_PROMPT_AFTER_SEGMENTS`. -/
def REFRESH_PROMPT_AFTER_SEGMENTS : ℕ := 3

/-! ## `generateInitialStory` -/

/-- The literal fallback segment returned by `generateInitialStory` when
generation fails. -/
def initialFallbackSegment : StorySegment where
  text := baseEnvironmentForest.defaultDescription
  environment :=
    { baseEnvironment := "forest"
      lighting := baseEnvironmentForest.lighting
      atmosphere := baseEnvironmentForest.atmosphere
      props := [] }
  choices :=
    [ { text := "Explore further"
        consequence := "You decide to venture deeper into this mysterious forest."
        environmentImpact :=
          { lightingChange := { intensity := some (0.8 : ℚ) }
            atmosphereChange := { fogDensity := some (0.1 : ℚ) }
            animationEffect := some
              { transitionType := some TransitionType.slide
                intensity := some (1.2 : ℚ)
                duration := some (2 : ℚ) } } }
    , { text := "Stay cautious"
        consequence := "You decide to carefully observe your surroundings before proceeding."
        environmentImpact :=
          { lightingChange := { intensity := some (1.4 : ℚ) }
            atmosphereChange := { fogDensity := some (0.01 : ℚ) }
            animationEffect := some
              { transitionType := some TransitionType.fade
                intensity := some (1.1 : ℚ)
                duration := some (2 : ℚ) } } } ]
  metadata := baseEnvironmentForest.metadata

/-- The `catch` block of `generateInitialStory`: derive a summary from the
fallback text (the attached `.catch` lambda is dead code, since
`generateSummary` handles its own failures) and return the fixed fallback
segment. -/
def initialStoryCatch (env : Env) (st : GenState) : StorySegment × GenState :=
  let pr := generateSummary env st baseEnvironmentForest.defaultDescription ""
  (initialFallbackSegment, updateStorySummary pr.2 pr.1)

/-- `generateInitialStory()`: complete and sanitize the opening prompt,
derive and store an initial summary, complete the strict-JSON choices
prompt and extract choices; any thrown generation failure lands in the
`catch` fallback. -/
def generateInitialStory (env : Env) (st : GenState) : StorySegment × GenState :=
  match generateText env st initialStoryPrompt with
  | (Except.error _, st1) => initialStoryCatch env st1
  | (Except.ok generatedText, st1) =>
    let pr := generateSummary env st1 generatedText ""
    let st2 := updateStorySummary pr.2 pr.1
    match generateText env st2 initialChoicesPrompt with
    | (Except.error _, st3) => initialStoryCatch env st3
    | (Except.ok choicesText, st3) =>
      let choices := parseChoicesFromText env.rand choicesText
      ( { text := if generatedText = "" then baseEnvironmentForest.defaultDescription else generatedText
          environment :=
            { baseEnvironment := "forest"
              lighting := baseEnvironmentForest.lighting
              atmosphere := baseEnvironmentForest.atmosphere
              props := [] }
          choices := choices
          metadata := baseEnvironmentForest.metadata }
        , st3 )

/-! ## `generateNextStorySegment` -/

/-- `currentStory.text.split(".").slice(-2).join(".").trim()`. -/
def lastParagraphOf (text : String) : String :=
  let parts := text.toList.splitOn '.'
  let lastTwo := parts.drop (parts.length - 2)
  jsTrimStr (String.mk (List.intercalate ['.'] lastTwo))

/-- The fallback segment of `generateNextStorySegment`, built purely from
the current segment and the chosen choice (no model call). -/
def nextStoryFallback (currentStory : StorySegment) (choice : Choice) : StorySegment where
  text := (choice.consequence ++ " ") ++ "As you continue your journey, new paths reveal themselves."
  environment :=
    { baseEnvironment := currentStory.environment.baseEnvironment
      lighting := mergeLighting currentStory.environment.lighting choice.environmentImpact.lightingChange
      atmosphere := mergeAtmosphere currentStory.environment.atmosphere choice.environmentImpact.atmosphereChange
      props := currentStory.environment.props }
  choices :=
    [ { text := "Explore the area"
        consequence := "You take time to explore your surroundings."
        environmentImpact :=
          { lightingChange := { intensity := some (1.1 : ℚ) }
            atmosphereChange := { fogDensity := some (0.05 : ℚ) }
            animationEffect := some
              { transitionType := some TransitionType.zoom
                intensity := some (1.3 : ℚ)
                duration := some (2.5 : ℚ) } } }
    , { text := "Continue on your path"
        consequence := "You decide to keep moving forward."
        environmentImpact :=
          { lightingChange := { intensity := some (0.9 : ℚ) }
            atmosphereChange := { fogDensity := some (0.03 : ℚ) }
            animationEffect := some
              { transitionType := some TransitionType.slide
                intensity := some (1.2 : ℚ)
                duration := some (2 : ℚ) } } } ]
  metadata :=
    { currentStory.metadata with location := currentStory.environment.baseEnvironment }

/-- `toLowerCase()` on a string (ASCII, matching the classifier's fixed
keywords). -/
def strToLower (s : String) : String :=
  String.mk (lowerList s.toList)

/-- `lowerText.includes(keyword)`. -/
def strContains (s keyword : String) : Bool :=
  containsSub s.toList keyword.toList

/-- `generateNextStorySegment(currentStory, choice)`: read the summary and
counter, increment the counter, decide the refresh using the counter value
read before the increment, optionally refresh the summary, build the
continuation prompt, complete and sanitize it, prepend the consequence,
update the summary only on non-refresh turns, classify the next
environment from the generated text, generate and extract new choices, and
assemble the next segment; any thrown generation failure lands in the
local fallback. -/
def generateNextStorySegment (env : Env) (st0 : GenState)
    (currentStory : StorySegment) (choice : Choice) : StorySegment × GenState :=
  let storySummary := st0.storySummary
  let segmentsSincePromptRefresh := st0.segmentsSincePromptRefresh
  let st1 := incrementSegmentCount st0
  let shouldRefreshPrompt := REFRESH_PROMPT_AFTER_SEGMENTS ≤ segmentsSincePromptRefresh
  let refreshed :=
    if shouldRefreshPrompt then refreshStoryPrompt env st1 storySummary currentStory
    else (storySummary, st1)
  let workingSummary := refreshed.1
  let st2 := refreshed.2
  let lastParagraph := lastParagraphOf currentStory.text
  let storyPrompt :=
    if shouldRefreshPrompt then
      buildFreshPrompt workingSummary lastParagraph currentStory.environment.baseEnvironment
        currentStory.metadata
    else buildPrompt workingSummary lastParagraph currentStory.environment.baseEnvironment
  match generateText env st2 storyPrompt with
  | (Except.error _, st3) => (nextStoryFallback currentStory choice, st3)
  | (Except.ok generatedText, st3) =>
    let fullNewText := (choice.consequence ++ " ") ++ generatedText
    let st4 :=
      if shouldRefreshPrompt then st3
      else
        let pr := generateSummary env st3 fullNewText workingSummary
        updateStorySummary pr.2 pr.1
    let lowerText := strToLower generatedText
    let nextEnvironment :=
      if strContains lowerText "cave" || strContains lowerText "cavern"
          || strContains lowerText "underground" then "cave"
      else if strContains lowerText "ruin" || strContains lowerText "ancient"
          || strContains lowerText "structure" then "ruins"
      else currentStory.environment.baseEnvironment
    let environmentSettings := baseEnvironmentsGet nextEnvironment
    match generateText env st4 (nextChoicesPrompt generatedText) with
    | (Except.error _, st5) => (nextStoryFallback currentStory choice, st5)
    | (Except.ok choicesText, st5) =>
      let newChoices := parseChoicesFromText env.rand choicesText
      ( { text := fullNewText
          environment :=
            { baseEnvironment := nextEnvironment
              lighting := mergeLighting currentStory.environment.lighting
                choice.environmentImpact.lightingChange
              atmosphere := mergeAtmosphere currentStory.environment.atmosphere
                choice.environmentImpact.atmosphereChange
              props := currentStory.environment.props }
          choices := newChoices
          metadata := { environmentSettings.metadata with location := nextEnvironment } }
        , st5 )

/-! ## The pieces of the second pipeline variant cited by the spec -/

/-- `s.slice(-n)` (the trailing `n` characters). -/
def strTakeRight (n : ℕ) (s : String) : String :=
  String.mk (s.toList.drop (s.toList.length - n))

/-- The summary update of the second `generateNextStorySegment` variant:
`(storySummary + " " + fullText).slice(-1000)` (`maxSummaryLength`
= 1000). -/
def summaryUpdateV2 (storySummary fullText : String) : String :=
  strTakeRight 1000 ((storySummary ++ " ") ++ fullText)

/-- `String.prototype.startsWith`. -/
def strStartsWith (s t : String) : Bool :=
  t.toList.isPrefixOf s.toList

/-- `String.prototype.endsWith`. -/
def strEndsWith (s t : String) : Bool :=
  t.toList.reverse.isPrefixOf s.toList.reverse

/-- The consequence-join step of the second `generateNextStorySegment`
variant: keep the generated text alone when it already starts with the
consequence; otherwise prepend the consequence, joined with a period when
it lacks terminal punctuation. -/
def joinConsequenceV2 (consequence generatedText : String) : String :=
  if !strStartsWith generatedText consequence then
    if !strEndsWith consequence "." && !strEndsWith consequence "!"
        && !strEndsWith consequence "?" then
      (consequence ++ ". ") ++ generatedText
    else (consequence ++ " ") ++ generatedText
  else generatedText

/-- The shape guaranteed for every extractor result: at least two choices,
whose first two carry the fixed dimmer/brighter lighting deltas and hence
distinct environment impacts. -/
def ChoicesSpec (cs : List Choice) : Prop :=
  2 ≤ cs.length
  ∧ (cs.get? 0).map (fun c => c.environmentImpact.lightingChange.intensity)
    = some (some (0.8 : ℚ))
  ∧ (cs.get? 1).map (fun c => c.environmentImpact.lightingChange.intensity)
    = some (some (1.2 : ℚ))
  ∧ (cs.get? 0).map (fun c => c.environmentImpact)
    ≠ (cs.get? 1).map (fun c => c.environmentImpact)

/-! ## Concrete fixtures used to evaluate the pipeline -/

/-- A degenerate random stream (any fixed stream works: the properties
checked on concrete runs do not depend on the drawn values). -/
def randZero : ℕ → ℚ := fun _ => 0

/-- A backend that always throws. -/
def envAlwaysThrows : Env where
  gen := fun _ _ => Except.error ()
  rand := randZero

/-- A backend that answers every prompt with the same short sentence. -/
def envConstGo : Env where
  gen := fun _ _ => Except.ok "Go on."
  rand := randZero

/-- An 1100-character completion with no sentence boundary. -/
def longRun : String := String.mk (List.replicate 1100 'a')

/-- A backend whose summarization call (the second backend call of a
non-refresh turn) returns the long boundary-free completion. -/
def envLongSummary : Env where
  gen := fun i _ => if i = 1 then Except.ok longRun else Except.ok "Go."
  rand := randZero

/-- A backend whose continuation call mentions a cave. -/
def envCaveText : Env where
  gen := fun i _ => if i = 0 then Except.ok "You enter a dark cave." else Except.ok "Go."
  rand := randZero

/-- A backend whose completions restate the fixture choice's consequence. -/
def envFleeText : Env where
  gen := fun _ _ => Except.ok "You flee."
  rand := randZero

/-- A fresh session state. -/
def stInit : GenState where
  storySummary := "Start."
  segmentsSincePromptRefresh := 0
  genCalls := 0

/-- The fresh session state with the counter already at the threshold. -/
def stAtThreshold : GenState where
  storySummary := "Start."
  segmentsSincePromptRefresh := 3
  genCalls := 0

/-- A current-segment fixture (forest preset, no props). -/
def segFixture : StorySegment where
  text := "Start."
  environment :=
    { baseEnvironment := "forest"
      lighting := baseEnvironmentForest.lighting
      atmosphere := baseEnvironmentForest.atmosphere
      props := [] }
  choices := []
  metadata := baseEnvironmentForest.metadata

/-- A choice fixture whose impact only dims the lighting (no color
override). -/
def choiceFixture : Choice where
  text := "Go"
  consequence := "You go"
  environmentImpact := { lightingChange := { intensity := some (0.8 : ℚ) } }

/-- A choice fixture whose consequence lacks terminal punctuation. -/
def choiceFlee : Choice where
  text := "Run"
  consequence := "You flee"
  environmentImpact := {}

/-- Four successive turns against the constant backend, each fed the
previous turn's segment, starting from a zero counter. -/
def c3Turn1 : StorySegment × GenState :=
  generateNextStorySegment envConstGo stInit segFixture choiceFixture

/-- Second successive turn. -/
def c3Turn2 : StorySegment × GenState :=
  generateNextStorySegment envConstGo c3Turn1.2 c3Turn1.1 choiceFixture

/-- Third successive turn. -/
def c3Turn3 : StorySegment × GenState :=
  generateNextStorySegment envConstGo c3Turn2.2 c3Turn2.1 choiceFixture

/-- Fourth successive turn. -/
def c3Turn4 : StorySegment × GenState :=
  generateNextStorySegment envConstGo c3Turn3.2 c3Turn3.1 choiceFixture

/-- A well-formed two-element choices payload (the C9 scenario input). -/
def c9Input : String :=
  "[\x7b\"text\":\"Run\",\"consequence\":\"You flee\"\x7d,\x7b\"text\":\"Fight\",\"consequence\":\"You attack\"\x7d]"

/-- A well-formed three-element choices payload. -/
def threeChoicesInput : String :=
  "[\x7b\"text\":\"a\",\"consequence\":\"b\"\x7d,\x7b\"text\":\"c\",\"consequence\":\"d\"\x7d,\x7b\"text\":\"e\",\"consequence\":\"f\"\x7d]"

/-- A bracket-free payload whose first scraped consequence is whitespace
only. -/
def blankConsequenceInput : String :=
  "text: \"a\", consequence: \" \", text: \"b\", consequence: \"c\""

/-- 350 characters with no sentence boundary. -/
def noBoundaryInput : String := String.mk (List.replicate 350 'a')

/-- A text whose single sentence boundary sits beyond the 300-character
window only because of a long whitespace run. -/
def lateBoundaryInput : String :=
  ("a" ++ String.mk (List.replicate 300 ' ')) ++ ("b." ++ String.mk (List.replicate 300 'c'))

/-! ## Helper lemmas -/

theorem orFallback_ne_nil (l : List Char) : orFallback l ≠ [] := by
  unfold orFallback
  split
  · intro h
    exact absurd h (by decide)
  · assumption

theorem cleanCore_ne_nil (g p : List Char) : cleanCore g p ≠ [] := by
  unfold cleanCore
  exact orFallback_ne_nil _

theorem cleanGeneratedText_ne_empty (g p : String) : cleanGeneratedText g p ≠ "" := by
  have hne := cleanCore_ne_nil g.toList p.toList
  unfold cleanGeneratedText
  generalize cleanCore g.toList p.toList = l at hne ⊢
  intro h
  exact hne (congrArg String.data h)

theorem choicesSpec_of_cons (c0 c1 : Choice) (t : List Choice)
    (h0 : c0.environmentImpact.lightingChange.intensity = some (0.8 : ℚ))
    (h1 : c1.environmentImpact.lightingChange.intensity = some (1.2 : ℚ)) :
    ChoicesSpec (c0 :: c1 :: t) := by
  refine ⟨by simp, by simp [h0], by simp [h1], ?_⟩
  intro h
  have h2 : c0.environmentImpact = c1.environmentImpact := by
    simpa using h
  have h3 : c0.environmentImpact.lightingChange.intensity
      = c1.environmentImpact.lightingChange.intensity :=
    congrArg (fun e => e.lightingChange.intensity) h2
  rw [h0, h1] at h3
  injection h3 with h4
  norm_num at h4

theorem asArrayAtLeastTwo_some (o : Option JVal) (xs : List JVal)
    (h : asArrayAtLeastTwo o = some xs) : 2 ≤ xs.length := by
  rcases o with _ | v
  · simp [asArrayAtLeastTwo] at h
  · rcases v with _ | b | q | s | es | fs <;> simp [asArrayAtLeastTwo] at h
    exact h.2 ▸ h.1

theorem strategyA_choicesSpec (rand : ℕ → ℚ) (l : List Char) (cs : List Choice)
    (h : strategyA rand l = some cs) : ChoicesSpec cs := by
  unfold strategyA at h
  split at h
  · simp at h
  · split at h
    next xs hxs =>
      injection h with h
      subst h
      have hlen := asArrayAtLeastTwo_some _ _ hxs
      rcases xs with _ | ⟨x0, xs1⟩
      · simp at hlen
      rcases xs1 with _ | ⟨x1, t⟩
      · simp at hlen
      exact choicesSpec_of_cons _ _ _ rfl rfl
    next => simp at h

theorem strategyB_choicesSpec (l : List Char) (cs : List Choice)
    (h : strategyB l = some cs) : ChoicesSpec cs := by
  unfold strategyB at h
  split at h
  next => injection h with h; subst h; exact choicesSpec_of_cons _ _ _ rfl rfl
  next => simp at h

theorem strategyCNumbered_choicesSpec (l : List Char) (cs : List Choice)
    (h : strategyCNumbered l = some cs) : ChoicesSpec cs := by
  unfold strategyCNumbered at h
  split at h
  next => injection h with h; subst h; exact choicesSpec_of_cons _ _ _ rfl rfl
  next => simp at h

theorem strategyCBullets_choicesSpec (l : List Char) (cs : List Choice)
    (h : strategyCBullets l = some cs) : ChoicesSpec cs := by
  unfold strategyCBullets at h
  split at h
  next => injection h with h; subst h; exact choicesSpec_of_cons _ _ _ rfl rfl
  next => simp at h

theorem parseChoicesCore_choicesSpec (rand : ℕ → ℚ) (l : List Char) :
    ChoicesSpec (parseChoicesCore rand l) := by
  unfold parseChoicesCore
  split
  next cs h => exact strategyA_choicesSpec _ _ _ h
  next =>
    split
    next cs h => exact strategyB_choicesSpec _ _ h
    next =>
      split
      next cs h => exact strategyCNumbered_choicesSpec _ _ h
      next =>
        split
        next cs h => exact strategyCBullets_choicesSpec _ _ h
        next => exact choicesSpec_of_cons _ _ _ rfl rfl

theorem parseChoicesFromText_choicesSpec (rand : ℕ → ℚ) (s : String) :
    ChoicesSpec (parseChoicesFromText rand s) :=
  parseChoicesCore_choicesSpec rand (jsTrim s.toList)

/-! ## Claim theorems -/

set_option maxRecDepth 100000

/-- Claim C9: given the exact well-formed two-choice JSON input, the
extractor returns choices whose text fields are exactly `"Run"` and
`"Fight"`, in that order, for every random stream (the repair
substitutions of strategy A leave already-well-formed JSON intact). -/
theorem c9_wellformed_json_roundtrip (rand : ℕ → ℚ) :
    (parseChoicesFromText rand c9Input).map (fun c => c.text) = ["Run", "Fight"] := by
  rfl

/-- Claim C1, counterexample: the extractor does not always return exactly
two choices - the well-formed three-element payload yields three of them
(strategy A maps over every parsed element) - and it does not always
return non-empty consequences - the scraping strategy B pairs up a
whitespace-only consequence, which trims to the empty string. -/
theorem c1_exactly_two_counterexample :
    (parseChoicesFromText randZero threeChoicesInput).length = 3
    ∧ (parseChoicesFromText randZero blankConsequenceInput).map (fun c => c.consequence)
      = ["", "c"] := by
  exact ⟨rfl, rfl⟩

/-- Claim C1, amended: for every raw choice-text input and every random
stream, the extractor never throws and returns at least two choices (the
structured strategy returns one per parsed element, which can exceed two);
the first two always carry lighting-intensity deltas `0.8` and `1.2`
respectively, so their environment impacts are never identical.  Text and
consequence non-emptiness is not guaranteed by the scraping strategies. -/
theorem c1_extractor_amended (rand : ℕ → ℚ) (s : String) :
    2 ≤ (parseChoicesFromText rand s).length
    ∧ ((parseChoicesFromText rand s).get? 0).map
        (fun c => c.environmentImpact.lightingChange.intensity) = some (some (0.8 : ℚ))
    ∧ ((parseChoicesFromText rand s).get? 1).map
        (fun c => c.environmentImpact.lightingChange.intensity) = some (some (1.2 : ℚ))
    ∧ ((parseChoicesFromText rand s).get? 0).map (fun c => c.environmentImpact)
      ≠ ((parseChoicesFromText rand s).get? 1).map (fun c => c.environmentImpact) :=
  parseChoicesFromText_choicesSpec rand s

/-- Claim C4, counterexample: `clean` does not guarantee terminal
punctuation (`"hello"` comes back unchanged), does not enforce the
300-character cap when no sentence boundary is found (350 boundary-free
characters are kept in full rather than truncated to 300), and can return
a string that still starts with the prompt (stripping the echoed prompt
once can expose a second copy). -/
theorem c4_clean_counterexample :
    cleanGeneratedText "hello" "" = "hello"
    ∧ (cleanGeneratedText noBoundaryInput "").length = 350
    ∧ cleanGeneratedText "abab" "ab" = "ab" := by
  refine ⟨by decide, by decide, by decide⟩

/-- Claim C4, amended: for every raw output and prompt, `clean` returns a
non-empty string (the fixed fallback sentence guards the empty case); it
guarantees neither terminal punctuation, nor the 300-character cap when no
sentence boundary exists at a positive index inside the window (the text
is then kept whole), nor the absence of the prompt as a prefix. -/
theorem c4_clean_amended (raw prompt : String) : cleanGeneratedText raw prompt ≠ "" :=
  cleanGeneratedText_ne_empty raw prompt

/-- Claim C8, counterexample: `clean` is not idempotent on its own output,
not even with respect to steps 4-7: the empty input produces the fallback
sentence whose ellipsis a second pass collapses, and the whitespace
collapse of step 6 can move a sentence boundary inside the 300-character
window so that a second pass truncates the text further. -/
theorem c8_idempotence_counterexample :
    cleanGeneratedText "" "" = "The adventure continues..."
    ∧ cleanGeneratedText (cleanGeneratedText "" "") "" = "The adventure continues."
    ∧ (cleanGeneratedText lateBoundaryInput "").length = 304
    ∧ cleanGeneratedText (cleanGeneratedText lateBoundaryInput "") "" = "a b." := by
  refine ⟨by decide, by decide, by decide, by decide⟩

/-- Claim C8, amended: a second application of `clean` can rewrite its own
output further (ellipsis collapse of the fallback sentence; re-truncation
after whitespace collapse), so idempotence fails; a second application
still always returns a non-empty string, and at the failing inputs the
text is stable from the second application onward. -/
theorem c8_idempotence_amended :
    (∀ x p : String, cleanGeneratedText (cleanGeneratedText x p) "" ≠ "")
    ∧ cleanGeneratedText (cleanGeneratedText (cleanGeneratedText "" "") "") ""
      = cleanGeneratedText (cleanGeneratedText "" "") ""
    ∧ cleanGeneratedText (cleanGeneratedText (cleanGeneratedText lateBoundaryInput "") "") ""
      = cleanGeneratedText (cleanGeneratedText lateBoundaryInput "") "" := by
  refine ⟨fun x p => cleanGeneratedText_ne_empty _ _, by decide, by decide⟩

/-! ## State bookkeeping lemmas for the pipeline theorems -/

theorem generateText_state (env : Env) (st : GenState) (p : String) :
    (generateText env st p).2 = { st with genCalls := st.genCalls + 1 } := by
  unfold generateText
  cases h : env.gen st.genCalls p <;> simp [h]

theorem generateSummary_state (env : Env) (st : GenState) (a b : String) :
    (generateSummary env st a b).2 = { st with genCalls := st.genCalls + 1 } := by
  unfold generateSummary
  rcases hg : generateText env st (summaryPrompt b a) with ⟨v, st2⟩
  have h2 : st2 = { st with genCalls := st.genCalls + 1 } := by
    have h3 := generateText_state env st (summaryPrompt b a)
    rw [hg] at h3
    exact h3
  cases v <;> exact h2

/-- Claim C6, counterexample: on a successful turn whose generated text
classifies the next environment as `cave`, the returned lighting keeps the
current segment's forest color (the choice does not override `color`),
instead of the cave preset's color demanded by the claim. -/
theorem c6_environment_merge_counterexample :
    ((generateNextStorySegment envCaveText stInit segFixture choiceFixture).1).environment.baseEnvironment
      = "cave"
    ∧ ((generateNextStorySegment envCaveText stInit segFixture choiceFixture).1).environment.lighting.color
      = "#fdf4c4"
    ∧ (baseEnvironmentsGet "cave").lighting.color = "#a0c0e0"
    ∧ choiceFixture.environmentImpact.lightingChange.color = none := by
  refine ⟨by decide, by decide, by decide, by decide⟩

/-- Claim C6, amended: on every turn of the refresh-enabled variant
(successful or fallback), the returned lighting is the current segment's
lighting overridden by the choice's `lightingChange`, the atmosphere is
the current segment's atmosphere overridden by the choice's
`atmosphereChange`, and the props are carried over unchanged; the newly
classified environment's preset contributes only the metadata. -/
theorem c6_environment_merge_amended (env : Env) (st : GenState)
    (cur : StorySegment) (ch : Choice) :
    ((generateNextStorySegment env st cur ch).1).environment.lighting
      = mergeLighting cur.environment.lighting ch.environmentImpact.lightingChange
    ∧ ((generateNextStorySegment env st cur ch).1).environment.atmosphere
      = mergeAtmosphere cur.environment.atmosphere ch.environmentImpact.atmosphereChange
    ∧ ((generateNextStorySegment env st cur ch).1).environment.props
      = cur.environment.props := by
  unfold generateNextStorySegment
  dsimp only
  split
  · exact ⟨rfl, rfl, rfl⟩
  · split
    · exact ⟨rfl, rfl, rfl⟩
    · exact ⟨rfl, rfl, rfl⟩

/-- Claim C7, counterexample: on a successful turn whose sanitized
continuation restates the consequence verbatim and whose consequence lacks
terminal punctuation, the refresh-enabled variant still prepends the
consequence with a bare space - producing the duplication the claim rules
out and omitting the period join it requires. -/
theorem c7_consequence_join_counterexample :
    choiceFlee.consequence = "You flee"
    ∧ ((generateNextStorySegment envFleeText stInit segFixture choiceFlee).1).text
      = "You flee You flee." := by
  refine ⟨by decide, by decide⟩

/-- Claim C7, amended: the refresh-enabled variant always prepends the
chosen consequence followed by a single space to the continuation (also on
the fallback path), with no period join and no verbatim-duplication
check; that logic exists only in the second variant's join step, which
keeps a continuation already starting with the consequence and otherwise
joins with a period exactly when the consequence lacks terminal
punctuation. -/
theorem c7_consequence_join_amended :
    (∀ (env : Env) (st : GenState) (cur : StorySegment) (ch : Choice),
      ∃ rest : String,
        ((generateNextStorySegment env st cur ch).1).text = (ch.consequence ++ " ") ++ rest)
    ∧ (∀ cons g : String, strStartsWith g cons = true → joinConsequenceV2 cons g = g)
    ∧ (∀ cons g : String, strStartsWith g cons = false → strEndsWith cons "." = false →
        strEndsWith cons "!" = false → strEndsWith cons "?" = false →
        joinConsequenceV2 cons g = (cons ++ ". ") ++ g) := by
  refine ⟨?_, ?_, ?_⟩
  · intro env st cur ch
    unfold generateNextStorySegment
    dsimp only
    split
    · exact ⟨_, rfl⟩
    · split
      · exact ⟨_, rfl⟩
      · exact ⟨_, rfl⟩
  · intro cons g h
    unfold joinConsequenceV2
    rw [h]
    rfl
  · intro cons g h1 h2 h3 h4
    unfold joinConsequenceV2
    rw [h1, h2, h3, h4]
    rfl

/-- Claim C7, witness: the amended statement applied at concrete inputs -
a continuation that restates the consequence is kept without duplication,
and a consequence lacking terminal punctuation is joined with a period. -/
theorem c7_consequence_join_amended_witness :
    joinConsequenceV2 "You flee" "You flee into the woods." = "You flee into the woods."
    ∧ joinConsequenceV2 "He ran" "The end." = ("He ran" ++ ". ") ++ "The end." := by
  exact ⟨c7_consequence_join_amended.2.1 "You flee" "You flee into the woods." (by decide),
    c7_consequence_join_amended.2.2 "He ran" "The end." (by decide) (by decide) (by decide)
      (by decide)⟩

/-- Claim C2: with a backend that always throws, `generateInitialStory`
returns the literal fallback segment - whose metadata location is
`"forest"` and which carries exactly the two fixed choices - and
`generateNextStorySegment` returns the fallback segment built purely from
the current segment and the chosen choice; neither function has any
failure path of its own. -/
theorem c2_generate_never_rejects (env : Env) (st stN : GenState)
    (cur : StorySegment) (ch : Choice)
    (h : ∀ i p, env.gen i p = Except.error ()) :
    (generateInitialStory env st).1 = initialFallbackSegment
    ∧ initialFallbackSegment.metadata.location = "forest"
    ∧ initialFallbackSegment.choices.length = 2
    ∧ (generateNextStorySegment env stN cur ch).1 = nextStoryFallback cur ch := by
  refine ⟨?_, rfl, rfl, ?_⟩
  · unfold generateInitialStory initialStoryCatch
    simp [generateText, h]
  · unfold generateNextStorySegment refreshStoryPrompt
    simp [generateText, h]

/-- Claim C2, witness: the theorem at the concrete always-throwing
backend. -/
theorem c2_generate_never_rejects_witness :
    (generateInitialStory envAlwaysThrows stInit).1 = initialFallbackSegment
    ∧ (generateNextStorySegment envAlwaysThrows stInit segFixture choiceFixture).1
      = nextStoryFallback segFixture choiceFixture := by
  have h := c2_generate_never_rejects envAlwaysThrows stInit stInit segFixture choiceFixture
    (fun _ _ => rfl)
  exact ⟨h.1, h.2.2.2⟩

/-- Claim C10: with a backend that always throws, a `generateNext` turn
still increments `segmentsSincePromptRefresh` by exactly one - the
increment happens before any model interaction and is not rolled back when
the turn falls back - so failed turns count toward the refresh
threshold. -/
theorem c10_counter_on_failure (env : Env) (st : GenState)
    (cur : StorySegment) (ch : Choice)
    (h : ∀ i p, env.gen i p = Except.error ()) :
    ((generateNextStorySegment env st cur ch).2).segmentsSincePromptRefresh
      = st.segmentsSincePromptRefresh + 1
    ∧ (generateNextStorySegment env st cur ch).1 = nextStoryFallback cur ch := by
  unfold generateNextStorySegment refreshStoryPrompt
  simp [generateText, h, incrementSegmentCount]
  split <;> rfl

/-- Claim C10, witness: the theorem at the concrete always-throwing
backend. -/
theorem c10_counter_on_failure_witness :
    ((generateNextStorySegment envAlwaysThrows stInit segFixture choiceFixture).2).segmentsSincePromptRefresh
      = stInit.segmentsSincePromptRefresh + 1 :=
  (c10_counter_on_failure envAlwaysThrows stInit segFixture choiceFixture (fun _ _ => rfl)).1

/-! ## Lemmas for evaluating the pipeline on long boundary-free text -/

theorem generateText_snd_eq (env : Env) (st : GenState) (p : String) (v : Except Unit String)
    (st2 : GenState) (h : generateText env st p = (v, st2)) :
    st2 = { st with genCalls := st.genCalls + 1 } := by
  have h2 := congrArg Prod.snd h
  rw [generateText_state] at h2
  exact h2.symm

theorem dropWhile_jsWs_replicate (n : ℕ) :
    List.dropWhile jsWs (List.replicate n 'a') = List.replicate n 'a' := by
  cases n with
  | zero => rfl
  | succ m =>
    rw [List.replicate_succ, List.dropWhile_cons, show jsWs 'a' = false from rfl]
    simp

theorem jsTrim_replicate (n : ℕ) : jsTrim (List.replicate n 'a') = List.replicate n 'a' := by
  unfold jsTrim
  rw [dropWhile_jsWs_replicate, List.reverse_replicate, dropWhile_jsWs_replicate,
    List.reverse_replicate]

theorem indexOfSub_replicate (pat : List Char) (n : ℕ)
    (hh : (pat.headD ' ' == 'a') = false) (hne : pat ≠ []) :
    indexOfSub pat (List.replicate n 'a') = none := by
  rcases pat with _ | ⟨c, t⟩
  · exact absurd rfl hne
  · simp only [List.headD_cons] at hh
    induction n with
    | zero => simp [indexOfSub]
    | succ m ih =>
      rw [List.replicate_succ]
      unfold indexOfSub
      rw [show (c :: t).isPrefixOf ('a' :: List.replicate m 'a') = false by
        simp [List.isPrefixOf, hh]]
      simp [ih]

theorem removeFirstPatternCI_replicate (pat : List Char) (n : ℕ)
    (hh : (Char.toLower (pat.headD ' ') == 'a') = false) (hne : pat ≠ []) :
    removeFirstPatternCI pat (List.replicate n 'a') = List.replicate n 'a' := by
  rcases pat with _ | ⟨c, t⟩
  · exact absurd rfl hne
  · simp only [List.headD_cons] at hh
    induction n with
    | zero => rfl
    | succ m ih =>
      rw [List.replicate_succ]
      unfold removeFirstPatternCI
      rw [show (lowerList (c :: t)).isPrefixOf (lowerList ('a' :: List.replicate m 'a')) = false by
        simp [lowerList, List.isPrefixOf, hh, show Char.toLower 'a' = 'a' from rfl]]
      simp [ih]

theorem takeWhile_nonPunct_replicate (n : ℕ) :
    List.takeWhile (fun c => !isPunct c) (List.replicate n 'a') = List.replicate n 'a' := by
  induction n with
  | zero => rfl
  | succ m ih =>
    rw [List.replicate_succ, List.takeWhile_cons, show (!isPunct 'a') = true from rfl]
    simp [ih]

theorem sentencesOf_replicate (n : ℕ) : sentencesOf (List.replicate n 'a') = [] := by
  unfold sentencesOf
  rw [List.length_replicate]
  cases n with
  | zero => rfl
  | succ m =>
    unfold sentencesOfAux
    rw [show List.dropWhile isPunct (List.replicate (m + 1) 'a') = List.replicate (m + 1) 'a' by
      rw [List.replicate_succ, List.dropWhile_cons, show isPunct 'a' = false from rfl]; simp]
    rw [if_neg (by simp)]
    rw [takeWhile_nonPunct_replicate]
    dsimp only
    rw [List.length_replicate, List.drop_replicate]
    simp

theorem collapseRuns_replicate (p : Char → Bool) (r : Char) (hp : p 'a' = false) :
    ∀ (fuel n : ℕ), collapseRuns p r fuel (List.replicate n 'a') = List.replicate n 'a' := by
  intro fuel
  induction fuel with
  | zero => intro n; rfl
  | succ f ih =>
    intro n
    cases n with
    | zero => rfl
    | succ m =>
      rw [List.replicate_succ]
      unfold collapseRuns
      rw [hp]
      simp [ih]

theorem punctSquash_replicate :
    ∀ (fuel n : ℕ), punctSquash fuel (List.replicate n 'a') = List.replicate n 'a' := by
  intro fuel
  induction fuel with
  | zero => intro n; rfl
  | succ f ih =>
    intro n
    cases n with
    | zero => rfl
    | succ m =>
      rw [List.replicate_succ]
      unfold punctSquash
      rw [show isPunct 'a' = false from rfl]
      simp [ih]

theorem lastPunctIdx_replicate300 : lastPunctIdx (List.replicate 300 'a') = none := by
  decide

set_option maxHeartbeats 1000000 in
theorem cleanSteps_replicate (p : List Char) (n : ℕ) (hn : 300 < n)
    (hpre : p.isPrefixOf (List.replicate n 'a') = false) :
    cleanSteps (List.replicate n 'a') p = List.replicate n 'a' := by
  unfold cleanSteps
  dsimp only
  rw [jsTrim_replicate, hpre]
  rw [if_neg Bool.false_ne_true]
  rw [indexOfSub_replicate (['[', '\x7b']) n (by decide) (by decide)]
  dsimp only
  simp only [irrelevantPatterns, List.foldl]
  rw [removeFirstPatternCI_replicate ("The protagonist just chose to:".toList) n (by decide) (by decide)]
  rw [removeFirstPatternCI_replicate ("This leads to:".toList) n (by decide) (by decide)]
  rw [removeFirstPatternCI_replicate ("Setting:".toList) n (by decide) (by decide)]
  rw [removeFirstPatternCI_replicate ("Describe only what happens".toList) n (by decide) (by decide)]
  rw [removeFirstPatternCI_replicate ("Continue the story".toList) n (by decide) (by decide)]
  rw [removeFirstPatternCI_replicate ("Be vivid but concise".toList) n (by decide) (by decide)]
  rw [removeFirstPatternCI_replicate ("Write a brief continuation".toList) n (by decide) (by decide)]
  rw [removeFirstPatternCI_replicate ("The story was first published".toList) n (by decide) (by decide)]
  rw [removeFirstPatternCI_replicate ("The book was first published".toList) n (by decide) (by decide)]
  rw [sentencesOf_replicate]
  simp only [List.length_nil]
  rw [if_neg (show ¬ (1 : ℕ) < 0 by decide)]
  rw [List.length_replicate, if_pos hn]
  rw [List.take_replicate, Nat.min_eq_left (Nat.le_of_lt hn), lastPunctIdx_replicate300]
  dsimp only
  rw [jsTrim_replicate, List.length_replicate]
  rw [collapseRuns_replicate jsWs ' ' rfl]
  rw [collapseRuns_replicate (fun c => c = '\n') ' ' (by decide)]
  rw [collapseRuns_replicate (fun c => c = '.') '.' (by decide)]
  rw [punctSquash_replicate]

theorem cleanCore_replicate (p : List Char) (n : ℕ) (hn : 300 < n)
    (hpre : p.isPrefixOf (List.replicate n 'a') = false) :
    cleanCore (List.replicate n 'a') p = List.replicate n 'a' := by
  unfold cleanCore
  rw [cleanSteps_replicate p n hn hpre]
  unfold orFallback
  rw [if_neg (by simp; omega)]

theorem summaryPrompt_never_echoed (a b : String) (m : ℕ) :
    (summaryPrompt a b).toList.isPrefixOf (List.replicate (m + 1) 'a') = false := by
  have h1 : (summaryPrompt a b).toList
      = '\n' :: (("Summarize this story in a single concise paragraph (max 3 sentences):\n\nPrevious summary: " ++ a ++ "\n\nNew content: " ++ b ++ "\n\nKeep only the most important plot points and character information.\n").toList) := by
    rfl
  rw [h1, List.replicate_succ]
  show (('\n' == 'a') && _) = false
  rw [show ('\n' == 'a') = false from rfl, Bool.false_and]

theorem cleanGeneratedText_longRun (p : String)
    (hpre : p.toList.isPrefixOf (List.replicate 1100 'a') = false) :
    cleanGeneratedText longRun p = longRun := by
  unfold cleanGeneratedText longRun
  rw [show (String.mk (List.replicate 1100 'a')).toList = List.replicate 1100 'a' from rfl]
  rw [cleanCore_replicate p.toList 1100 (by norm_num) hpre]

theorem jsTrimStr_longRun : jsTrimStr longRun = longRun := by
  unfold jsTrimStr longRun
  rw [show (String.mk (List.replicate 1100 'a')).toList = List.replicate 1100 'a' from rfl]
  rw [jsTrim_replicate]

theorem generateSummary_envLong (stX : GenState) (hc : stX.genCalls = 1) (t prev : String) :
    generateSummary envLongSummary stX t prev
      = (longRun, { stX with genCalls := stX.genCalls + 1 }) := by
  unfold generateSummary generateText
  rw [show envLongSummary.gen stX.genCalls (summaryPrompt prev t) = Except.ok longRun by
    simp [envLongSummary, hc]]
  dsimp only
  rw [show cleanGeneratedText longRun (summaryPrompt prev t) = longRun from
    cleanGeneratedText_longRun _ (summaryPrompt_never_echoed prev t 1099)]
  rw [jsTrimStr_longRun]

theorem generateNext_envLong_summary :
    ((generateNextStorySegment envLongSummary stInit segFixture choiceFixture).2).storySummary
      = longRun := by
  unfold generateNextStorySegment
  dsimp only
  rw [if_neg (show ¬ REFRESH_PROMPT_AFTER_SEGMENTS ≤ stInit.segmentsSincePromptRefresh by decide)]
  rw [if_neg (show ¬ REFRESH_PROMPT_AFTER_SEGMENTS ≤ stInit.segmentsSincePromptRefresh by decide)]
  split
  next x e st3 heq =>
    exfalso
    simp only [generateText, envLongSummary, incrementSegmentCount, stInit] at heq
    simp at heq
  next x g st3 heq =>
    have h3 := generateText_snd_eq _ _ _ _ _ heq
    subst h3
    rw [if_neg (show ¬ REFRESH_PROMPT_AFTER_SEGMENTS ≤ stInit.segmentsSincePromptRefresh by decide)]
    rw [generateSummary_envLong _ (by simp [incrementSegmentCount, stInit]) _ _]
    split
    next x2 e2 st5 heq2 =>
      have h5 := generateText_snd_eq _ _ _ _ _ heq2
      subst h5
      simp [updateStorySummary]
    next x2 g2 st5 heq2 =>
      have h5 := generateText_snd_eq _ _ _ _ _ heq2
      subst h5
      simp [updateStorySummary]

/-- Claim C5, counterexample: one successful non-refresh turn against a
backend whose summarization completion is 1100 boundary-free characters
leaves `storySummary` 1100 characters long - beyond every cap present in
the source (200 in the summarizer's failure path, 1000 in the second
variant's concatenation): the success path of the refresh-enabled variant
stores the cleaned completion with no length bound at all. -/
theorem c5_summary_cap_counterexample :
    1000 <
      ((generateNextStorySegment envLongSummary stInit segFixture choiceFixture).2).storySummary.length := by
  rw [generateNext_envLong_summary]
  unfold longRun
  rw [show (String.mk (List.replicate 1100 'a')).length = (List.replicate 1100 'a').length from rfl]
  rw [List.length_replicate]
  norm_num

/-- Claim C5, amended: the summary is bounded only on two specific paths -
when the summarization completion fails, the concatenated fallback summary
is capped at its leading 200 characters, and the second variant's
concatenating update keeps only the trailing 1000 characters - while the
success path of the refresh-enabled variant stores the cleaned completion
with no cap. -/
theorem c5_summary_cap_amended :
    (∀ (env : Env) (st : GenState) (text prev : String),
      env.gen st.genCalls (summaryPrompt prev text) = Except.error () →
      ((generateSummary env st text prev).1).length ≤ 200)
    ∧ (∀ s t : String, (summaryUpdateV2 s t).length ≤ 1000) := by
  constructor
  · intro env st text prev h
    unfold generateSummary generateText
    rw [h]
    dsimp only
    rw [show (strTake 200 (if prev ≠ "" then prev ++ " Then, " ++ firstDotSegment text ++ "."
        else firstDotSegment text ++ ".")).length
      = ((if prev ≠ "" then prev ++ " Then, " ++ firstDotSegment text ++ "."
        else firstDotSegment text ++ ".").toList.take 200).length from rfl]
    rw [List.length_take]
    omega
  · intro s t
    unfold summaryUpdateV2 strTakeRight
    rw [show (String.mk ((((s ++ " ") ++ t).toList).drop (((s ++ " ") ++ t).toList.length - 1000))).length
      = ((((s ++ " ") ++ t).toList).drop (((s ++ " ") ++ t).toList.length - 1000)).length from rfl]
    rw [List.length_drop]
    omega

/-- Claim C5, witness: the amended statement applied at concrete inputs -
a failing summarization caps the fallback summary at 200 characters, and
the second variant's update caps the concatenation at 1000. -/
theorem c5_summary_cap_amended_witness :
    ((generateSummary envAlwaysThrows stInit "Hello there. More." "Prev.").1).length ≤ 200
    ∧ (summaryUpdateV2 "Start." "You go on.").length ≤ 1000 :=
  ⟨c5_summary_cap_amended.1 envAlwaysThrows stInit "Hello there. More." "Prev." rfl,
    c5_summary_cap_amended.2 "Start." "You go on."⟩

/-! ## Claim C3 -/

/-- Claim C3, counterexample: starting from a zero counter with a backend
that always succeeds, three successive `generateNext` calls leave
`segmentsSincePromptRefresh` at 1, 2 and 3 - the third call does not
observe the refresh branch (the comparison uses the value read before the
increment), so no reset to 0 happens on it; the refresh is first observed
on the fourth call, after which the counter is 0. -/
theorem c3_refresh_counterexample :
    c3Turn1.2.segmentsSincePromptRefresh = 1
    ∧ c3Turn2.2.segmentsSincePromptRefresh = 2
    ∧ c3Turn3.2.segmentsSincePromptRefresh = 3
    ∧ c3Turn4.2.segmentsSincePromptRefresh = 0 := by
  refine ⟨by decide, by decide, by decide, by decide⟩

/-- Claim C3, amended: the refresh decision compares the counter value
read before the increment against the threshold 3, so with the counter
starting at 0 the refresh branch is first observed on the fourth
successive call, not the third.  A turn entering below the threshold
leaves the counter incremented by exactly 1; a turn entering at or above
the threshold whose dedicated fresh-summary generation succeeds leaves the
counter at exactly 0 and the summary equal to the cleaned fresh-summary
completion (not a concatenation); if that generation fails the counter is
not reset and ends at its entry value plus 1. -/
theorem c3_refresh_amended (env : Env) (st : GenState) (cur : StorySegment) (ch : Choice) :
    (st.segmentsSincePromptRefresh < REFRESH_PROMPT_AFTER_SEGMENTS →
      ((generateNextStorySegment env st cur ch).2).segmentsSincePromptRefresh
        = st.segmentsSincePromptRefresh + 1)
    ∧ (∀ s : String, REFRESH_PROMPT_AFTER_SEGMENTS ≤ st.segmentsSincePromptRefresh →
        env.gen st.genCalls (freshSummaryPrompt st.storySummary) = Except.ok s →
        ((generateNextStorySegment env st cur ch).2).segmentsSincePromptRefresh = 0
        ∧ ((generateNextStorySegment env st cur ch).2).storySummary
          = cleanGeneratedText s (freshSummaryPrompt st.storySummary))
    ∧ (REFRESH_PROMPT_AFTER_SEGMENTS ≤ st.segmentsSincePromptRefresh →
        env.gen st.genCalls (freshSummaryPrompt st.storySummary) = Except.error () →
        ((generateNextStorySegment env st cur ch).2).segmentsSincePromptRefresh
          = st.segmentsSincePromptRefresh + 1) := by
  refine ⟨?_, ?_, ?_⟩
  · intro hlt
    have hR : ¬ REFRESH_PROMPT_AFTER_SEGMENTS ≤ st.segmentsSincePromptRefresh :=
      Nat.not_le.mpr hlt
    unfold generateNextStorySegment
    dsimp only
    rw [if_neg hR, if_neg hR]
    split
    next x e st3 heq =>
      have h3 := generateText_snd_eq _ _ _ _ _ heq
      subst h3
      simp [incrementSegmentCount]
    next x g st3 heq =>
      have h3 := generateText_snd_eq _ _ _ _ _ heq
      subst h3
      rw [if_neg hR]
      split
      next x2 e2 st5 heq2 =>
        have h5 := generateText_snd_eq _ _ _ _ _ heq2
        subst h5
        simp [updateStorySummary, generateSummary_state, incrementSegmentCount]
      next x2 g2 st5 heq2 =>
        have h5 := generateText_snd_eq _ _ _ _ _ heq2
        subst h5
        simp [updateStorySummary, generateSummary_state, incrementSegmentCount]
  · intro s hge hok
    have hrt : generateText env (incrementSegmentCount st) (freshSummaryPrompt st.storySummary)
        = (Except.ok (cleanGeneratedText s (freshSummaryPrompt st.storySummary)),
          { incrementSegmentCount st with
              genCalls := (incrementSegmentCount st).genCalls + 1 }) := by
      simp [generateText, incrementSegmentCount, hok]
    unfold generateNextStorySegment refreshStoryPrompt
    dsimp only
    rw [if_pos hge, hrt]
    dsimp only
    rw [if_pos hge]
    split
    next x e st3 heq =>
      have h3 := generateText_snd_eq _ _ _ _ _ heq
      subst h3
      simp [resetSegmentCount, updateStorySummary, incrementSegmentCount]
    next x g st3 heq =>
      have h3 := generateText_snd_eq _ _ _ _ _ heq
      subst h3
      rw [if_pos hge]
      split
      next x2 e2 st5 heq2 =>
        have h5 := generateText_snd_eq _ _ _ _ _ heq2
        subst h5
        simp [resetSegmentCount, updateStorySummary, incrementSegmentCount]
      next x2 g2 st5 heq2 =>
        have h5 := generateText_snd_eq _ _ _ _ _ heq2
        subst h5
        simp [resetSegmentCount, updateStorySummary, incrementSegmentCount]
  · intro hge herr
    have hrt : generateText env (incrementSegmentCount st) (freshSummaryPrompt st.storySummary)
        = (Except.error (),
          { incrementSegmentCount st with
              genCalls := (incrementSegmentCount st).genCalls + 1 }) := by
      simp [generateText, incrementSegmentCount, herr]
    unfold generateNextStorySegment refreshStoryPrompt
    dsimp only
    rw [if_pos hge, hrt]
    dsimp only
    rw [if_pos hge]
    split
    next x e st3 heq =>
      have h3 := generateText_snd_eq _ _ _ _ _ heq
      subst h3
      simp [incrementSegmentCount]
    next x g st3 heq =>
      have h3 := generateText_snd_eq _ _ _ _ _ heq
      subst h3
      rw [if_pos hge]
      split
      next x2 e2 st5 heq2 =>
        have h5 := generateText_snd_eq _ _ _ _ _ heq2
        subst h5
        simp [incrementSegmentCount]
      next x2 g2 st5 heq2 =>
        have h5 := generateText_snd_eq _ _ _ _ _ heq2
        subst h5
        simp [incrementSegmentCount]

/-- Claim C3, witness: the amended statement applied at concrete inputs -
a below-threshold turn increments the counter to 1, and an at-threshold
turn with a succeeding backend resets it to 0 and installs the cleaned
fresh-summary completion. -/
theorem c3_refresh_amended_witness :
    ((generateNextStorySegment envConstGo stInit segFixture choiceFixture).2).segmentsSincePromptRefresh = 1
    ∧ ((generateNextStorySegment envConstGo stAtThreshold segFixture choiceFixture).2).segmentsSincePromptRefresh = 0
    ∧ ((generateNextStorySegment envConstGo stAtThreshold segFixture choiceFixture).2).storySummary
      = cleanGeneratedText "Go on." (freshSummaryPrompt stAtThreshold.storySummary) := by
  have h1 := (c3_refresh_amended envConstGo stInit segFixture choiceFixture).1 (by decide)
  have h2 := (c3_refresh_amended envConstGo stAtThreshold segFixture choiceFixture).2.1
    "Go on." (by decide) rfl
  exact ⟨h1, h2.1, h2.2⟩

end StoryGen
